import Mathlib

/-!
Verification of the georischio risk-scoring backend.

Shallow embedding of `src/backend/ml_forecast.py` (classes
`FeatureEngineering` and `RiskPredictor`) and
`src/backend/post_processor.py` (class `PredictionPostProcessor`).

Numeric values are modelled as rationals (`ℚ`).  Python exceptions are
modelled with `Except PyError`: a function that can raise an exception
that escapes the function returns `Except`; a `try/except` block that
absorbs an exception into a fallback is modelled by matching on the
inner result.  External effects (the DEM raster read, the Open-Meteo
HTTP call, numpy's random draws) are modelled as explicit environment
parameters holding the data the effect would produce.
-/

/-- Python exception classes that occur in the embedded code. -/
inductive PyError where
  | valueError
  | keyError
  | requestException
  | indexError
  | runtimeError
deriving DecidableEq, Repr

/-- Normalisation of a Python item-access index: a negative index
counts from the end. -/
def pyNormIndex (len : ℕ) (i : ℤ) : ℤ :=
  if i < 0 then (len : ℤ) + i else i

/-- Python item access `xs[i]`: a negative index counts from the end,
an index out of range raises `IndexError`. -/
def pyIndex {α : Type} (xs : List α) (i : ℤ) : Except PyError α :=
  if h : 0 ≤ pyNormIndex xs.length i ∧ (pyNormIndex xs.length i).toNat < xs.length then
    .ok (xs.get ⟨(pyNormIndex xs.length i).toNat, h.2⟩)
  else .error .indexError

/-- Normalisation of one endpoint of a Python slice `xs[a:b]`:
negative endpoints count from the end, and both ends are clamped
into `[0, len]` (slices never raise). -/
def pySliceIdx (len : ℕ) (i : ℤ) : ℕ :=
  if i < 0 then ((len : ℤ) + i).toNat else min i.toNat len

/-- Python slice `xs[a:b]`. -/
def pySlice {α : Type} (xs : List α) (a b : ℤ) : List α :=
  (xs.take (pySliceIdx xs.length b)).drop (pySliceIdx xs.length a)

/-- A Python `for` loop that builds a list, where the body can raise:
the first raise aborts the whole loop and propagates. -/
def mapExcept {α β : Type} (f : α → Except PyError β) : List α → Except PyError (List β)
  | [] => .ok []
  | a :: l =>
    match f a with
    | .error e => .error e
    | .ok b =>
      match mapExcept f l with
      | .error e => .error e
      | .ok bs => .ok (b :: bs)

/-! ## FeatureEngineering (ml_forecast.py, lines 58-188) -/

/-- The `feature_engineering` section of the config dict.  `none` models
an absent key, read through `config.get(key, default)`. -/
structure FEConfig where
  terrain_buffer_radius_m : Option ℚ := none
  weather_past_days : Option ℕ := none
  weather_forecast_days : Option ℕ := none

/-- Result dict of `extract_terrain_features`. -/
structure TerrainFeatures where
  elevation_mean : ℚ
  elevation_std : ℚ
  slope_mean : ℚ
  roughness : ℚ
deriving DecidableEq, Repr, Inhabited

/-- The state of the DEM raster source as `extract_terrain_features`
observes it:
* `noDem`: `self.dem_path` is `None`;
* `demMissing`: a path is configured but `self.dem_path.exists()` is false;
* `ioError`: `rasterio` raises `RasterioIOError` (or an `IndexError`)
  while opening/masking the raster;
* `raster cells nodata`: the masked band `out_image[0]` flattened to a
  cell list, together with the raster's declared nodata value. -/
inductive RasterEnv where
  | noDem
  | demMissing
  | ioError
  | raster (cells : List ℚ) (nodata : ℚ)

/-- The fallback branch of `extract_terrain_features`
(ml_forecast.py lines 108-116). -/
def terrainFallback (lat : ℚ) : TerrainFeatures :=
  { elevation_mean := 200 + (lat - 45.4) * 1500
    elevation_std := 150
    slope_mean := 5 + (lat - 45.4) * 20
    roughness := 20 }

/-- The body of the `try` block of `extract_terrain_features` once the
masked cells are available (ml_forecast.py lines 93-104).
`elevation_data` is the 1-D array of cells different from nodata; fewer
than 10 of them raises `ValueError`. Otherwise line 97 executes
`dy, dx = np.gradient(elevation_data)`: `np.gradient` of a 1-D array is
a single array of the same length, and unpacking it into two names
raises `ValueError` because that length is at least 10, never 2.  So
the statistics on lines 99-104 are unreachable and the `try` body never
returns normally once cells were read. -/
def terrainTryBody (cells : List ℚ) (nodata : ℚ) : Except PyError TerrainFeatures :=
  let elevation_data := cells.filter (fun c => c ≠ nodata)
  if elevation_data.length < 10 then
    .error .valueError
  else
    .error .valueError

/-- `FeatureEngineering.extract_terrain_features`
(ml_forecast.py lines 65-116).  The `except` clause catches
`ValueError`, `RasterioIOError` and `IndexError` and falls back; with
no raster configured or an absent file the `if` on line 69 skips
straight to the fallback. -/
def extract_terrain_features (env : RasterEnv) (lat : ℚ) : TerrainFeatures :=
  match env with
  | .noDem => terrainFallback lat
  | .demMissing => terrainFallback lat
  | .ioError => terrainFallback lat
  | .raster cells nodata =>
    match terrainTryBody cells nodata with
    | .ok f => f
    | .error _ => terrainFallback lat

/-- Result dict of `extract_weather_features`. -/
structure WeatherFeatures where
  precip_1d_past : ℚ
  precip_3d_past : ℚ
  precip_7d_past : ℚ
  precip_3d_forecast : ℚ
deriving DecidableEq, Repr, Inhabited

/-- The fixed `fallback_data` dict (ml_forecast.py lines 120-125). -/
def weatherFallback : WeatherFeatures :=
  { precip_1d_past := 5
    precip_3d_past := 15
    precip_7d_past := 30
    precip_3d_forecast := 10 }

/-- The parsed JSON body of an Open-Meteo response, reduced to the only
parts the code reads.  `daily_precipitation_sum = none` models a body
in which key `daily` or key `precipitation_sum` is absent (line 153);
an entry `none` in the list models a JSON `null` daily value. -/
structure MeteoJson where
  daily_precipitation_sum : Option (List (Option ℚ)) := none

/-- What the HTTP call of `extract_weather_features` produces:
either some `requests` exception (transport error, timeout, or a bad
HTTP status from `raise_for_status`) or a parsed JSON body. -/
inductive WeatherEnv where
  | transportError
  | response (data : MeteoJson)

/-- The body of the `try` block of `extract_weather_features`
(ml_forecast.py lines 141-170): validate the response shape, replace
`None` daily values by `0.0`, check that at least `num_past` days were
returned (otherwise return the fallback), then aggregate with Python
indexing/slicing. -/
def weatherTry (cfg : FEConfig) (env : WeatherEnv) : Except PyError WeatherFeatures :=
  match env with
  | .transportError => .error .requestException
  | .response data =>
    match data.daily_precipitation_sum with
    | none => .error .valueError
    | some precip_raw =>
      let precip := precip_raw.map (fun p => p.getD 0)
      let num_past := cfg.weather_past_days.getD 7
      if precip.length < num_past then .ok weatherFallback
      else
        match pyIndex precip ((num_past : ℤ) - 1) with
        | .error e => .error e
        | .ok p1 =>
          .ok { precip_1d_past := p1
                precip_3d_past := (pySlice precip ((num_past : ℤ) - 3) (num_past : ℤ)).sum
                precip_7d_past := (pySlice precip 0 (num_past : ℤ)).sum
                precip_3d_forecast := (pySlice precip (num_past : ℤ) (precip.length : ℤ)).sum }

/-- `FeatureEngineering.extract_weather_features`
(ml_forecast.py lines 118-174).  Out-of-range coordinates return the
fixed fallback before any request is attempted (lines 128-130).  The
`except` clause catches `requests.exceptions.RequestException`,
`ValueError` and `KeyError` and returns the fallback; any other
exception (an `IndexError` from `precip[num_past-1]`) propagates. -/
def extract_weather_features (cfg : FEConfig) (env : WeatherEnv) (lat lon : ℚ) :
    Except PyError WeatherFeatures :=
  if ¬(-90 ≤ lat ∧ lat ≤ 90) ∨ ¬(-180 ≤ lon ∧ lon ≤ 180) then .ok weatherFallback
  else
    match weatherTry cfg env with
    | .ok w => .ok w
    | .error .requestException => .ok weatherFallback
    | .error .valueError => .ok weatherFallback
    | .error .keyError => .ok weatherFallback
    | .error e => .error e

/-- The parts of a `datetime` that `create_feature_vector` reads:
`date.month` and `date.timetuple().tm_yday`. -/
structure Date where
  month : ℕ := 1
  day_of_year : ℕ := 1
deriving DecidableEq, Repr, Inhabited

/-- The single row produced by `create_feature_vector`, with the dict
insertion order of ml_forecast.py lines 179-186 as field order. -/
structure FeatureVector where
  elevation_mean : ℚ
  elevation_std : ℚ
  slope_mean : ℚ
  roughness : ℚ
  precip_1d_past : ℚ
  precip_3d_past : ℚ
  precip_7d_past : ℚ
  precip_3d_forecast : ℚ
  month : ℕ
  day_of_year : ℕ
  latitude : ℚ
  longitude : ℚ
deriving DecidableEq, Repr, Inhabited

/-- `FeatureEngineering.create_feature_vector`
(ml_forecast.py lines 176-188): terrain features, weather features,
calendar features and the echoed coordinates.  An exception escaping
`extract_weather_features` propagates. -/
def create_feature_vector (cfg : FEConfig) (tenv : RasterEnv) (wenv : WeatherEnv)
    (lat lon : ℚ) (date : Date) : Except PyError FeatureVector :=
  let t := extract_terrain_features tenv lat
  match extract_weather_features cfg wenv lat lon with
  | .error e => .error e
  | .ok w =>
    .ok { elevation_mean := t.elevation_mean
          elevation_std := t.elevation_std
          slope_mean := t.slope_mean
          roughness := t.roughness
          precip_1d_past := w.precip_1d_past
          precip_3d_past := w.precip_3d_past
          precip_7d_past := w.precip_7d_past
          precip_3d_forecast := w.precip_3d_forecast
          month := date.month
          day_of_year := date.day_of_year
          latitude := lat
          longitude := lon }

/-! ## RiskPredictor (ml_forecast.py, lines 191-353) -/

/-- A fitted scaler: the sklearn `StandardScaler.transform` applied to
a matrix, held abstract.  A matrix entry `none` models a pandas `NaN`
(produced by `reindex` for an unknown column). -/
def Scaler : Type := List (List (Option ℚ)) → List (List (Option ℚ))

/-- A fitted regressor: the xgboost `model.predict` applied to a scaled
matrix, returning one raw score per row, held abstract. -/
def Regressor : Type := List (List (Option ℚ)) → List ℚ

/-- The mutable state of a `RiskPredictor` instance that
`predict`, `save_model` and `load_model` read and write:
`self.model`, `self.scaler` and `self.feature_names_`
(ml_forecast.py lines 197-200). -/
structure RiskPredictor where
  model : Option Regressor
  scaler : Scaler
  feature_names_ : List String

/-- The alert-level ladder of `RiskPredictor.predict`
(ml_forecast.py lines 318-325): the four tiers, RED = ROSSO,
ORANGE = ARANCIONE, YELLOW = GIALLO, GREEN = VERDE. -/
inductive AlertLevel where
  | VERDE
  | GIALLO
  | ARANCIONE
  | ROSSO
deriving DecidableEq, Repr, Inhabited

/-- Ordinal rank of an alert tier (GREEN lowest, RED highest). -/
def alertRank : AlertLevel → ℕ
  | .VERDE => 0
  | .GIALLO => 1
  | .ARANCIONE => 2
  | .ROSSO => 3

/-- The if/elif ladder of `RiskPredictor.predict` that maps a clipped
score to an alert level (ml_forecast.py lines 318-325). -/
def classify_alert (score : ℚ) : AlertLevel :=
  if score ≥ 70 then .ROSSO
  else if score ≥ 50 then .ARANCIONE
  else if score ≥ 30 then .GIALLO
  else .VERDE

/-- `np.clip(x, 0, 100)` applied entrywise
(ml_forecast.py line 313). -/
def clip0100 (x : ℚ) : ℚ := min 100 (max x 0)

/-- Column lookup used by `reindex(columns=self.feature_names_)`
(ml_forecast.py line 307): a known column yields its value, an unknown
column yields `NaN`, modelled `none`. -/
def featureValue (fv : FeatureVector) : String → Option ℚ
  | "elevation_mean" => some fv.elevation_mean
  | "elevation_std" => some fv.elevation_std
  | "slope_mean" => some fv.slope_mean
  | "roughness" => some fv.roughness
  | "precip_1d_past" => some fv.precip_1d_past
  | "precip_3d_past" => some fv.precip_3d_past
  | "precip_7d_past" => some fv.precip_7d_past
  | "precip_3d_forecast" => some fv.precip_3d_forecast
  | "month" => some (fv.month : ℚ)
  | "day_of_year" => some (fv.day_of_year : ℚ)
  | "latitude" => some fv.latitude
  | "longitude" => some fv.longitude
  | _ => none

/-- One row of `features_df.reindex(columns=self.feature_names_)`. -/
def reindexRow (names : List String) (fv : FeatureVector) : List (Option ℚ) :=
  names.map (featureValue fv)

/-- One row of the DataFrame returned by `RiskPredictor.predict`
(ml_forecast.py lines 327-332). -/
structure PredRow where
  latitude : ℚ
  longitude : ℚ
  risk_score : ℚ
  alert_level : AlertLevel
deriving DecidableEq, Repr, Inhabited

/-- `RiskPredictor.predict` (ml_forecast.py lines 298-334):
raise `RuntimeError` when no model is set; build one feature vector per
location with `datetime.now()` as the date; reindex to the fitted
schema; scale; run the regressor; clip every raw score into `[0, 100]`;
then assemble one result row per location, reading `risk_scores[i]`
by index and classifying the clipped score. -/
def predict (rp : RiskPredictor) (cfg : FEConfig) (tenv : RasterEnv) (wenv : WeatherEnv)
    (now : Date) (locations : List (ℚ × ℚ)) : Except PyError (List PredRow) :=
  match rp.model with
  | none => .error .runtimeError
  | some model =>
    match mapExcept (fun lc => create_feature_vector cfg tenv wenv lc.1 lc.2 now) locations with
    | .error e => .error e
    | .ok all_features =>
      let features_df := all_features.map (reindexRow rp.feature_names_)
      let features_scaled := rp.scaler features_df
      let risk_scores := (model features_scaled).map clip0100
      mapExcept (fun ilc =>
          match pyIndex risk_scores (ilc.1 : ℤ) with
          | .error e => .error e
          | .ok score =>
            .ok { latitude := ilc.2.1
                  longitude := ilc.2.2
                  risk_score := score
                  alert_level := classify_alert score })
        locations.enum

/-- One historical event row as `prepare_training_data` reads it:
coordinates from `event.geometry`, plus the optional `data_evento`
and `intensita` columns read through `event.get`. -/
structure HistEvent where
  lat : ℚ := 0
  lon : ℚ := 0
  data_evento : Option Date := none
  intensita : Option ℚ := none
deriving DecidableEq, Repr, Inhabited

/-- Study-area bounds dict. -/
structure Bounds where
  lat_min : ℚ
  lat_max : ℚ
  lon_min : ℚ
  lon_max : ℚ
deriving DecidableEq, Repr, Inhabited

/-- The hard-coded default bounds of `prepare_training_data`
(ml_forecast.py line 222). -/
def defaultBounds : Bounds :=
  { lat_min := 45.4, lat_max := 46.6, lon_min := 8.5, lon_max := 11.4 }

/-- The `model` section of the config dict, reduced to the key
`prepare_training_data` reads.  Lines 221-222 first replace the dict by
`{}` when the key is absent and then read it with the same default, so
the net effect is `config.get('lombardy_bounds', default)`. -/
structure MLConfig where
  lombardy_bounds : Option Bounds := none

/-- `np.random.uniform(lo, hi)` draws from `[lo, hi)`; the draw is
modelled as `lo + u * (hi - lo)` with the unit sample `u` supplied by
an oracle. -/
def npUniform (lo hi u : ℚ) : ℚ := lo + u * (hi - lo)

/-- `RiskPredictor.prepare_training_data` (ml_forecast.py lines
202-238).  One positive row per historical event (date defaulting to
`now`, label `event.get('intensita', 50)`), then `pd.concat(X_list)`
— which raises `ValueError` on an empty list — then as many synthetic
negative rows, each at a uniform random point inside the configured
bounds with a random past date and label 0, concatenated after the
positives.  The unit samples for the latitude and longitude draws and
the drawn dates (`datetime.now() - timedelta(days=randint(0, 3650))`)
are supplied by oracles indexed by the loop counter.  The recording of
`self.feature_names_` is the fixed `FeatureVector` column order and is
not part of the returned value. -/
def prepare_training_data (mlcfg : MLConfig) (cfg : FEConfig) (tenv : RasterEnv)
    (wenv : WeatherEnv) (now : Date) (latU lonU : ℕ → ℚ) (negDate : ℕ → Date)
    (events : List HistEvent) : Except PyError (List FeatureVector × List ℚ) :=
  match mapExcept
      (fun e => create_feature_vector cfg tenv wenv e.lat e.lon (e.data_evento.getD now))
      events with
  | .error e => .error e
  | .ok x_list =>
    if x_list.isEmpty then .error .valueError
    else
      let y := events.map (fun e => e.intensita.getD 50)
      let n_negative := x_list.length
      let bounds := mlcfg.lombardy_bounds.getD defaultBounds
      match mapExcept
          (fun i => create_feature_vector cfg tenv wenv
            (npUniform bounds.lat_min bounds.lat_max (latU i))
            (npUniform bounds.lon_min bounds.lon_max (lonU i))
            (negDate i))
          (List.range n_negative) with
      | .error e => .error e
      | .ok neg_list =>
        .ok (x_list ++ neg_list, y ++ List.replicate n_negative 0)

/-- The dict stored by `save_model` / read by `load_model`.  A `none`
field models an absent dict key (so `model = some none` is a stored
aggregate whose `model` entry is present but holds a regressor that
was never trained). -/
structure ModelData where
  model : Option (Option Regressor) := none
  scaler : Option Scaler := none
  features : Option (List String) := none

/-- `RiskPredictor.save_model` (ml_forecast.py lines 336-345): the
serialized dict always carries all three entries. -/
def save_model (rp : RiskPredictor) : ModelData :=
  { model := some rp.model, scaler := some rp.scaler, features := some rp.feature_names_ }

/-- `RiskPredictor.load_model` (ml_forecast.py lines 347-353): three
sequential statements `self.model = model_data['model']`,
`self.scaler = model_data['scaler']`,
`self.feature_names_ = model_data['features']`.  Each dict lookup
raises `KeyError` when its key is absent, aborting the remaining
statements but leaving the assignments already executed in place.  The
result is the instance state after the call together with whether a
`KeyError` was raised. -/
def load_model (self : RiskPredictor) (model_data : ModelData) : RiskPredictor × Bool :=
  match model_data.model with
  | none => (self, true)
  | some m =>
    let s1 : RiskPredictor := { self with model := m }
    match model_data.scaler with
    | none => (s1, true)
    | some sc =>
      let s2 : RiskPredictor := { s1 with scaler := sc }
      match model_data.features with
      | none => (s2, true)
      | some f => ({ s2 with feature_names_ := f }, false)

/-! ## PredictionPostProcessor (post_processor.py) -/

/-- One entry of the `capoluoghi_coords` config dict:
`name: (lat, lon, province)`. -/
structure Capoluogo where
  nome : String
  lat : ℚ
  lon : ℚ
  provincia : String
deriving DecidableEq, Repr, Inhabited

/-- The `post_processing` config section, reduced to the key the
constructor reads.  The dict is modelled as its entry list in
insertion order. -/
structure PPConfig where
  capoluoghi_coords : List Capoluogo := []

/-- The attributes the constructor sets only when `capoluoghi_coords`
is non-empty: the name list, the `(x=lon, y=lat)` coordinate array the
KDTree is built over, and the province list
(post_processor.py lines 19-27). -/
structure SpatialIndex where
  capoluoghi_nomi : List String
  capoluoghi_coords : List (ℚ × ℚ)
  capoluoghi_prov : List String
deriving DecidableEq, Repr

/-- The state of a `PredictionPostProcessor`: `self.kdtree` is `None`
when the config held no capoluoghi (an empty dict is falsy), otherwise
the spatial index bundle. -/
structure PredictionPostProcessor where
  kdtree : Option SpatialIndex

/-- `PredictionPostProcessor.__init__` (post_processor.py lines 14-30). -/
def mkPostProcessor (cfg : PPConfig) : PredictionPostProcessor :=
  if cfg.capoluoghi_coords.isEmpty then { kdtree := none }
  else
    { kdtree := some
        { capoluoghi_nomi := cfg.capoluoghi_coords.map (fun c => c.nome)
          capoluoghi_coords := cfg.capoluoghi_coords.map (fun c => (c.lon, c.lat))
          capoluoghi_prov := cfg.capoluoghi_coords.map (fun c => c.provincia) } }

/-- One record of the prediction GeoDataFrame as `_enrich_locations`
reads and writes it: the point geometry plus the enrichment columns
(`none` before assignment). -/
structure PredRecord where
  geometry_x : ℚ := 0
  geometry_y : ℚ := 0
  risk_score : ℚ := 0
  comune : Option String := none
  provincia : Option String := none
deriving DecidableEq, Repr, Inhabited

/-- Squared Euclidean distance in the plane, the metric the KDTree
minimises. -/
def sqDist (p q : ℚ × ℚ) : ℚ := (p.1 - q.1) ^ 2 + (p.2 - q.2) ^ 2

/-- `self.kdtree.query(point, k=1)`: the index of the nearest reference
coordinate, ties resolved to the smallest index (a deterministic
tie-break, as the KDTree's is for a fixed index). -/
def nearestIdx (coords : List (ℚ × ℚ)) (q : ℚ × ℚ) : ℕ :=
  ((coords.enum.foldl
      (fun best ic =>
        match best with
        | none => some (ic.1, sqDist ic.2 q)
        | some bd => if sqDist ic.2 q < bd.2 then some (ic.1, sqDist ic.2 q) else some bd)
      none).map Prod.fst).getD 0

/-- `PredictionPostProcessor._enrich_locations`
(post_processor.py lines 32-47): with no KDTree or an empty frame,
assign the sentinel columns `comune = "Unknown"`,
`provincia = "N/A"` to every record; otherwise assign each record the
name and province of its nearest capoluogo. -/
def enrich_locations (pp : PredictionPostProcessor) (gdf : List PredRecord) :
    List PredRecord :=
  match pp.kdtree with
  | none => gdf.map (fun r => { r with comune := some "Unknown", provincia := some "N/A" })
  | some idx =>
    if gdf.isEmpty then
      gdf.map (fun r => { r with comune := some "Unknown", provincia := some "N/A" })
    else
      gdf.map (fun r =>
        let i := nearestIdx idx.capoluoghi_coords (r.geometry_x, r.geometry_y)
        { r with comune := some (idx.capoluoghi_nomi.getD i "")
                 provincia := some (idx.capoluoghi_prov.getD i "") })

/-- A concrete one-event history used to instantiate the training-set
claims at a specific input. -/
def sampleEvents : List HistEvent :=
  [{ lat := 45, lon := 9, data_evento := none, intensita := some 80 }]

/-! ## Helper lemmas -/

theorem pyIndex_nat_ok {α : Type} (xs : List α) (n : ℕ) (d : α) (h : n < xs.length) :
    pyIndex xs (n : ℤ) = .ok (xs.getD n d) := by
  have h1 : pyNormIndex xs.length (n : ℤ) = (n : ℤ) := by
    simp [pyNormIndex]
  have h2 : 0 ≤ pyNormIndex xs.length (n : ℤ) ∧
      (pyNormIndex xs.length (n : ℤ)).toNat < xs.length := by
    rw [h1]; exact ⟨by omega, by simpa using h⟩
  simp only [pyIndex, dif_pos h2]
  have h3 : xs.get ⟨(pyNormIndex xs.length (n : ℤ)).toNat, h2.2⟩ = xs.getD n d := by
    rw [List.getD_eq_getElem _ _ h]
    simp [List.get_eq_getElem, h1]
  rw [h3]

theorem pyIndex_ok_mem {α : Type} (xs : List α) (i : ℤ) (x : α)
    (h : pyIndex xs i = .ok x) : x ∈ xs := by
  unfold pyIndex at h
  by_cases hc : 0 ≤ pyNormIndex xs.length i ∧ (pyNormIndex xs.length i).toNat < xs.length
  · rw [dif_pos hc] at h
    simp only [Except.ok.injEq] at h
    exact h ▸ xs.get_mem _ _
  · rw [dif_neg hc] at h
    cases h

theorem pySlice_natCast {α : Type} (xs : List α) (a b : ℕ) :
    pySlice xs (a : ℤ) (b : ℤ) = (xs.take (min b xs.length)).drop (min a xs.length) := by
  simp only [pySlice, pySliceIdx, if_neg (by omega : ¬((a : ℤ) < 0)),
    if_neg (by omega : ¬((b : ℤ) < 0))]
  rfl

theorem mapExcept_ok_of_forall {α β : Type} [Inhabited α] [Inhabited β]
    (f : α → Except PyError β) :
    ∀ l : List α, (∀ a ∈ l, ∃ b, f a = .ok b) →
      ∃ bs : List β, mapExcept f l = .ok bs ∧ bs.length = l.length ∧
        ∀ i, i < l.length → f (l.getD i default) = .ok (bs.getD i default)
  | [], _ => ⟨[], rfl, rfl, fun i hi => absurd hi (by simp)⟩
  | a :: l, h => by
    obtain ⟨b, hb⟩ := h a (List.mem_cons_self a l)
    obtain ⟨bs, hbs, hlen, hidx⟩ :=
      mapExcept_ok_of_forall f l (fun x hx => h x (List.mem_cons_of_mem a hx))
    refine ⟨b :: bs, ?_, by simp [hlen], ?_⟩
    · simp [mapExcept, hb, hbs]
    · intro i hi
      cases i with
      | zero => simpa using hb
      | succ n => simpa using hidx n (by simpa using hi)

theorem mapExcept_ok_mem {α β : Type} (f : α → Except PyError β) :
    ∀ (l : List α) (bs : List β), mapExcept f l = .ok bs → ∀ b ∈ bs, ∃ a ∈ l, f a = .ok b
  | [], bs, h => by
    simp only [mapExcept, Except.ok.injEq] at h
    subst h
    intro b hb
    simp at hb
  | a :: l, bs, h => by
    intro b hb
    simp only [mapExcept] at h
    cases hfa : f a with
    | error e => rw [hfa] at h; cases h
    | ok b0 =>
      rw [hfa] at h
      cases hml : mapExcept f l with
      | error e => rw [hml] at h; cases h
      | ok bs0 =>
        rw [hml] at h
        simp only [Except.ok.injEq] at h
        subst h
        rcases List.mem_cons.mp hb with hb | hb
        · exact ⟨a, List.mem_cons_self a l, hb ▸ hfa⟩
        · obtain ⟨a2, ha2, hfa2⟩ := mapExcept_ok_mem f l bs0 hml b hb
          exact ⟨a2, List.mem_cons_of_mem a ha2, hfa2⟩

theorem extract_weather_features_ok (cfg : FEConfig) (env : WeatherEnv) (lat lon : ℚ)
    (h : 1 ≤ cfg.weather_past_days.getD 7) :
    ∃ w, extract_weather_features cfg env lat lon = .ok w := by
  unfold extract_weather_features
  split
  · exact ⟨weatherFallback, rfl⟩
  · cases env with
    | transportError => exact ⟨weatherFallback, rfl⟩
    | response data =>
      cases hd : data.daily_precipitation_sum with
      | none =>
        refine ⟨weatherFallback, ?_⟩
        simp only [weatherTry, hd]
      | some precip_raw =>
        by_cases hlen :
            (precip_raw.map (fun p => p.getD (0 : ℚ))).length < cfg.weather_past_days.getD 7
        · refine ⟨weatherFallback, ?_⟩
          simp only [weatherTry, hd, if_pos hlen]
        · have hidx : cfg.weather_past_days.getD 7 - 1 <
              (precip_raw.map (fun p => p.getD (0 : ℚ))).length := by omega
          have hpi := pyIndex_nat_ok (precip_raw.map (fun p => p.getD (0 : ℚ)))
            (cfg.weather_past_days.getD 7 - 1) 0 hidx
          have hcast : ((cfg.weather_past_days.getD 7 : ℤ) - 1) =
              ((cfg.weather_past_days.getD 7 - 1 : ℕ) : ℤ) := by omega
          exact ⟨_, by simp only [weatherTry, hd, if_neg hlen, hcast, hpi]; rfl⟩

theorem create_feature_vector_ok (cfg : FEConfig) (tenv : RasterEnv) (wenv : WeatherEnv)
    (lat lon : ℚ) (date : Date) (h : 1 ≤ cfg.weather_past_days.getD 7) :
    ∃ fv, create_feature_vector cfg tenv wenv lat lon date = .ok fv ∧
      fv.latitude = lat ∧ fv.longitude = lon := by
  obtain ⟨w, hw⟩ := extract_weather_features_ok cfg wenv lat lon h
  unfold create_feature_vector
  rw [hw]
  exact ⟨_, rfl, rfl, rfl⟩

theorem create_feature_vector_fields (cfg : FEConfig) (tenv : RasterEnv) (wenv : WeatherEnv)
    (lat lon : ℚ) (date : Date) (fv : FeatureVector)
    (h : create_feature_vector cfg tenv wenv lat lon date = .ok fv) :
    fv.latitude = lat ∧ fv.longitude = lon := by
  unfold create_feature_vector at h
  cases hw : extract_weather_features cfg wenv lat lon with
  | error e => rw [hw] at h; cases h
  | ok w =>
    rw [hw] at h
    simp only [Except.ok.injEq] at h
    subst h
    exact ⟨rfl, rfl⟩

theorem terrainTryBody_error (cells : List ℚ) (nodata : ℚ) :
    terrainTryBody cells nodata = .error .valueError := by
  simp [terrainTryBody]

theorem extract_terrain_raster_fallback (lat nodata : ℚ) (cells : List ℚ) :
    extract_terrain_features (.raster cells nodata) lat = terrainFallback lat := by
  simp [extract_terrain_features, terrainTryBody_error]

/-! ## Claims -/

/-- C3: the alert classification is total and non-overlapping over every
rational score, with breakpoints inclusive at each lower bound
(score ≥ 70 RED/ROSSO, 50 ≤ score < 70 ORANGE/ARANCIONE,
30 ≤ score < 50 YELLOW/GIALLO, score < 30 GREEN/VERDE), monotone in the
score, and classifies 0, 29.9, 30, 49.9, 50, 69.9, 70, 100 to
GREEN, GREEN, YELLOW, YELLOW, ORANGE, ORANGE, RED, RED. -/
theorem C3_alert_classification :
    (∀ s : ℚ, classify_alert s = .ROSSO ↔ 70 ≤ s) ∧
    (∀ s : ℚ, classify_alert s = .ARANCIONE ↔ 50 ≤ s ∧ s < 70) ∧
    (∀ s : ℚ, classify_alert s = .GIALLO ↔ 30 ≤ s ∧ s < 50) ∧
    (∀ s : ℚ, classify_alert s = .VERDE ↔ s < 30) ∧
    (∀ s t : ℚ, s ≤ t → alertRank (classify_alert s) ≤ alertRank (classify_alert t)) ∧
    classify_alert 0 = .VERDE ∧ classify_alert 29.9 = .VERDE ∧
    classify_alert 30 = .GIALLO ∧ classify_alert 49.9 = .GIALLO ∧
    classify_alert 50 = .ARANCIONE ∧ classify_alert 69.9 = .ARANCIONE ∧
    classify_alert 70 = .ROSSO ∧ classify_alert 100 = .ROSSO := by
  refine ⟨?_, ?_, ?_, ?_, ?_, ?_, ?_, ?_, ?_, ?_, ?_, ?_, ?_⟩
  · intro s
    unfold classify_alert
    split_ifs with h1 h2 h3 <;> simp_all <;> linarith
  · intro s
    unfold classify_alert
    split_ifs with h1 h2 h3 <;> simp_all <;>
      first
      | linarith
      | (constructor <;> linarith)
      | (intro hx; linarith)
      | (rintro ⟨hx, hy⟩; linarith)
  · intro s
    unfold classify_alert
    split_ifs with h1 h2 h3 <;> simp_all <;>
      first
      | linarith
      | (constructor <;> linarith)
      | (intro hx; linarith)
      | (rintro ⟨hx, hy⟩; linarith)
  · intro s
    unfold classify_alert
    split_ifs with h1 h2 h3 <;> simp_all <;> linarith
  · intro s t hst
    unfold classify_alert
    split_ifs with h1 h2 h3 h4 h5 h6 <;> simp_all [alertRank] <;> linarith
  · norm_num [classify_alert]
  · norm_num [classify_alert]
  · norm_num [classify_alert]
  · norm_num [classify_alert]
  · norm_num [classify_alert]
  · norm_num [classify_alert]
  · norm_num [classify_alert]
  · norm_num [classify_alert]

/-- C3 witness: the monotonicity component applied at the concrete pair
of scores 10 ≤ 80. -/
theorem C3_alert_classification_witness :
    alertRank (classify_alert 10) ≤ alertRank (classify_alert 80) :=
  C3_alert_classification.2.2.2.2.1 10 80 (by norm_num)

/-- C7: whenever the raster path is not taken — no raster configured,
raster file absent, an I/O or format error during the read, or fewer
than 10 valid (non-nodata) cells inside the buffer — the terrain
sampler returns exactly the deterministic fallback
elevationMean = 200 + (lat − 45.4) · 1500, elevationStd = 150,
slopeMean = 5 + (lat − 45.4) · 20, roughness = 20. -/
theorem C7_terrain_fallback :
    (∀ lat : ℚ, extract_terrain_features .noDem lat = terrainFallback lat) ∧
    (∀ lat : ℚ, extract_terrain_features .demMissing lat = terrainFallback lat) ∧
    (∀ lat : ℚ, extract_terrain_features .ioError lat = terrainFallback lat) ∧
    (∀ (lat nodata : ℚ) (cells : List ℚ),
      (cells.filter (fun c => c ≠ nodata)).length < 10 →
      extract_terrain_features (.raster cells nodata) lat = terrainFallback lat) ∧
    (∀ lat : ℚ, terrainFallback lat =
      { elevation_mean := 200 + (lat - 45.4) * 1500, elevation_std := 150,
        slope_mean := 5 + (lat - 45.4) * 20, roughness := 20 }) := by
  refine ⟨fun lat => rfl, fun lat => rfl, fun lat => rfl, ?_, fun lat => rfl⟩
  intro lat nodata cells _
  exact extract_terrain_raster_fallback lat nodata cells

/-- C7 witness: the insufficient-cells component applied at a concrete
raster of 3 valid cells. -/
theorem C7_terrain_fallback_witness :
    (([1, 2, 3] : List ℚ).filter (fun c => c ≠ 0)).length < 10 ∧
    extract_terrain_features (.raster [1, 2, 3] 0) 46 = terrainFallback 46 :=
  ⟨by decide, C7_terrain_fallback.2.2.2.1 46 0 [1, 2, 3] (by decide)⟩

/-- C8: for every point with latitude outside [−90, 90] or longitude
outside [−180, 180], the weather sampler returns exactly the fixed
fallback {5.0, 15.0, 30.0, 10.0}, and the result is independent of the
weather provider environment (no external call is consulted). -/
theorem C8_weather_invalid_coords :
    ∀ (cfg : FEConfig) (env env2 : WeatherEnv) (lat lon : ℚ),
      ¬(-90 ≤ lat ∧ lat ≤ 90) ∨ ¬(-180 ≤ lon ∧ lon ≤ 180) →
      extract_weather_features cfg env lat lon = .ok weatherFallback ∧
      extract_weather_features cfg env lat lon = extract_weather_features cfg env2 lat lon ∧
      weatherFallback = { precip_1d_past := 5, precip_3d_past := 15,
                          precip_7d_past := 30, precip_3d_forecast := 10 } := by
  intro cfg env env2 lat lon h
  have h1 : extract_weather_features cfg env lat lon = .ok weatherFallback := by
    unfold extract_weather_features
    rw [if_pos h]
  have h2 : extract_weather_features cfg env2 lat lon = .ok weatherFallback := by
    unfold extract_weather_features
    rw [if_pos h]
  exact ⟨h1, h1.trans h2.symm, rfl⟩

/-- C8 witness: latitude 95 with two different provider environments. -/
theorem C8_weather_invalid_coords_witness :
    (¬((-90 : ℚ) ≤ 95 ∧ (95 : ℚ) ≤ 90) ∨ ¬((-180 : ℚ) ≤ 9 ∧ (9 : ℚ) ≤ 180)) ∧
    extract_weather_features {} .transportError 95 9 = .ok weatherFallback ∧
    extract_weather_features {} .transportError 95 9 =
      extract_weather_features {} (.response {}) 95 9 := by
  have h : ¬((-90 : ℚ) ≤ 95 ∧ (95 : ℚ) ≤ 90) ∨ ¬((-180 : ℚ) ≤ 9 ∧ (9 : ℚ) ≤ 180) := by
    norm_num
  have hc := C8_weather_invalid_coords {} .transportError (.response {}) 95 9 h
  exact ⟨h, hc.1, hc.2.1⟩

/-- C9: when no reference localities are configured (the constructor
left the spatial index absent), location enrichment assigns the
sentinel locality "Unknown" and province "N/A" to every record of a
non-empty batch, and is a total function (no raise). -/
theorem C9_enrich_empty_localities :
    ∀ (cfg : PPConfig) (gdf : List PredRecord),
      cfg.capoluoghi_coords = [] → gdf ≠ [] →
      (enrich_locations (mkPostProcessor cfg) gdf).length = gdf.length ∧
      ∀ r ∈ enrich_locations (mkPostProcessor cfg) gdf,
        r.comune = some "Unknown" ∧ r.provincia = some "N/A" := by
  intro cfg gdf hcfg _
  have hpp : mkPostProcessor cfg = { kdtree := none } := by
    simp [mkPostProcessor, hcfg]
  rw [hpp]
  unfold enrich_locations
  constructor
  · simp
  · intro r hr
    simp only [List.mem_map] at hr
    obtain ⟨r0, _, hr0⟩ := hr
    subst hr0
    exact ⟨rfl, rfl⟩

/-- C9 witness: a one-record batch under an empty locality config. -/
theorem C9_enrich_empty_localities_witness :
    (enrich_locations (mkPostProcessor { capoluoghi_coords := [] })
        [{ geometry_x := 9.2, geometry_y := 45.5 }]).length = 1 ∧
    ({ geometry_x := 9.2, geometry_y := 45.5, comune := some "Unknown",
       provincia := some "N/A" } : PredRecord).comune = some "Unknown" ∧
    ({ geometry_x := 9.2, geometry_y := 45.5, comune := some "Unknown",
       provincia := some "N/A" } : PredRecord).provincia = some "N/A" := by
  have hc := C9_enrich_empty_localities { capoluoghi_coords := [] }
    [{ geometry_x := 9.2, geometry_y := 45.5 }] rfl (by simp)
  refine ⟨hc.1, ?_, ?_⟩
  · exact (hc.2 _ (by simp [enrich_locations, mkPostProcessor])).1
  · exact (hc.2 _ (by simp [enrich_locations, mkPostProcessor])).2

/-- C1 counterexample: a stored aggregate whose `scaler` entry is
missing makes `load_model` raise, yet the in-memory regressor has
already been overwritten, so the load is not atomic: the state differs
from its value before the call. -/
theorem C1_load_counterexample :
    (load_model { model := none, scaler := fun m => m, feature_names_ := [] }
        { model := some (some (fun _ => [0])), scaler := none,
          features := some ["latitude"] }).2 = true ∧
    (load_model { model := none, scaler := fun m => m, feature_names_ := [] }
        { model := some (some (fun _ => [0])), scaler := none,
          features := some ["latitude"] }).1.model ≠
      ({ model := none, scaler := fun m => m, feature_names_ := [] } : RiskPredictor).model := by
  constructor
  · rfl
  · simp [load_model]

/-- C1 amended: loading a stored aggregate that lacks any of the three
parts {model, scaler, feature schema} raises an error, but the load is
only atomic when the `model` entry itself is missing; when a later
entry is missing, the fields read before it have already been
reassigned (missing `scaler` leaves the loaded regressor in place;
missing `features` leaves the loaded regressor and scaler in place). -/
theorem C1_load_error_partial :
    (∀ (self : RiskPredictor) (d : ModelData),
      d.model = none ∨ d.scaler = none ∨ d.features = none →
      (load_model self d).2 = true) ∧
    (∀ (self : RiskPredictor) (d : ModelData),
      d.model = none → load_model self d = (self, true)) ∧
    (∀ (self : RiskPredictor) (d : ModelData) (m : Option Regressor),
      d.model = some m → d.scaler = none →
      load_model self d = ({ self with model := m }, true)) ∧
    (∀ (self : RiskPredictor) (d : ModelData) (m : Option Regressor) (sc : Scaler),
      d.model = some m → d.scaler = some sc → d.features = none →
      load_model self d = ({ self with model := m, scaler := sc }, true)) := by
  refine ⟨?_, ?_, ?_, ?_⟩
  · intro self d h
    cases hm : d.model with
    | none => simp [load_model, hm]
    | some m =>
      cases hs : d.scaler with
      | none => simp [load_model, hm, hs]
      | some sc =>
        cases hf : d.features with
        | none => simp [load_model, hm, hs, hf]
        | some f => simp [hm, hs, hf] at h
  · intro self d hm
    simp [load_model, hm]
  · intro self d m hm hs
    simp [load_model, hm, hs]
  · intro self d m sc hm hs hf
    simp [load_model, hm, hs, hf]

/-- C1 amended witness: the missing-`scaler` component applied at a
concrete prior state and stored aggregate. -/
theorem C1_load_error_partial_witness :
    load_model { model := none, scaler := fun m => m, feature_names_ := [] }
        { model := some (some (fun _ => [0])), scaler := none,
          features := some ["latitude"] } =
      ({ model := some (fun _ => [0]), scaler := fun m => m, feature_names_ := [] }, true) :=
  C1_load_error_partial.2.2.1 _ _ _ rfl rfl

/-- C2: the terrain sampler is total — for every raster environment and
every latitude it returns a value for all four fields (a rational, so a
finite number, for each) — and consequently the feature builder never
raises: for every point, date and environment it returns a complete
feature vector carrying those terrain fields (given a configured
past-day window of at least one day, as any sane configuration and the
default 7 satisfy). -/
theorem C2_feature_builder_total :
    ∀ (cfg : FEConfig) (tenv : RasterEnv) (wenv : WeatherEnv) (lat lon : ℚ) (date : Date),
      1 ≤ cfg.weather_past_days.getD 7 →
      ∃ fv : FeatureVector, create_feature_vector cfg tenv wenv lat lon date = .ok fv ∧
        fv.elevation_mean = (extract_terrain_features tenv lat).elevation_mean ∧
        fv.elevation_std = (extract_terrain_features tenv lat).elevation_std ∧
        fv.slope_mean = (extract_terrain_features tenv lat).slope_mean ∧
        fv.roughness = (extract_terrain_features tenv lat).roughness := by
  intro cfg tenv wenv lat lon date h
  obtain ⟨w, hw⟩ := extract_weather_features_ok cfg wenv lat lon h
  unfold create_feature_vector
  rw [hw]
  exact ⟨_, rfl, rfl, rfl, rfl, rfl⟩

/-- C2 witness: the default configuration, no raster, a failing weather
provider, and a concrete point. -/
theorem C2_feature_builder_total_witness :
    1 ≤ (({} : FEConfig).weather_past_days.getD 7) ∧
    ∃ fv : FeatureVector,
      create_feature_vector {} .noDem .transportError 45.5 9.2 {} = .ok fv ∧
      fv.elevation_mean = (extract_terrain_features .noDem 45.5).elevation_mean ∧
      fv.elevation_std = (extract_terrain_features .noDem 45.5).elevation_std ∧
      fv.slope_mean = (extract_terrain_features .noDem 45.5).slope_mean ∧
      fv.roughness = (extract_terrain_features .noDem 45.5).roughness :=
  ⟨by decide, C2_feature_builder_total {} .noDem .transportError 45.5 9.2 {} (by decide)⟩

/-- C4: every risk score returned by a successful `predict` call lies
within [0, 100], whatever raw values the regressor produced — the raw
output array is clipped entrywise before the result rows are built. -/
theorem C4_predict_scores_clipped :
    ∀ (rp : RiskPredictor) (cfg : FEConfig) (tenv : RasterEnv) (wenv : WeatherEnv)
      (now : Date) (locations : List (ℚ × ℚ)) (res : List PredRow),
      predict rp cfg tenv wenv now locations = .ok res →
      ∀ r ∈ res, 0 ≤ r.risk_score ∧ r.risk_score ≤ 100 := by
  intro rp cfg tenv wenv now locations res hok r hr
  unfold predict at hok
  cases hm : rp.model with
  | none => simp [hm] at hok
  | some model =>
    simp only [hm] at hok
    cases hfeat :
        mapExcept (fun lc => create_feature_vector cfg tenv wenv lc.1 lc.2 now) locations with
    | error e => simp [hfeat] at hok
    | ok all_features =>
      simp only [hfeat] at hok
      obtain ⟨ilc, hmem, hrow⟩ := mapExcept_ok_mem _ locations.enum res hok r hr
      cases hpi : pyIndex
          ((model (rp.scaler (all_features.map (reindexRow rp.feature_names_)))).map clip0100)
          (ilc.1 : ℤ) with
      | error e => simp [hpi] at hrow
      | ok score =>
        simp only [hpi, Except.ok.injEq] at hrow
        subst hrow
        have hsmem := pyIndex_ok_mem _ _ _ hpi
        obtain ⟨s0, hs0mem, hs0⟩ := List.mem_map.mp hsmem
        refine ⟨?_, ?_⟩
        · show (0 : ℚ) ≤ score
          rw [← hs0]
          exact le_min (by norm_num) (le_max_right _ _)
        · show score ≤ (100 : ℚ)
          rw [← hs0]
          exact min_le_left _ _

/-- C4 witness: a stub regressor returning the raw scores −50 and 500
yields recorded scores 0 and 100 (the clip bounds applied at the second
returned row, whose clipped score is 100). -/
theorem C4_predict_scores_clipped_witness :
    predict { model := some (fun _ => [-50, 500]), scaler := (fun m => m),
              feature_names_ := ["latitude", "longitude"] }
        {} .noDem .transportError {} [(46, 9), (45, 10)] =
      .ok [{ latitude := 46, longitude := 9, risk_score := 0, alert_level := .VERDE },
           { latitude := 45, longitude := 10, risk_score := 100, alert_level := .ROSSO }] ∧
    (0 : ℚ) ≤ ({ latitude := 45, longitude := 10, risk_score := 100,
                 alert_level := .ROSSO } : PredRow).risk_score ∧
    ({ latitude := 45, longitude := 10, risk_score := 100,
       alert_level := .ROSSO } : PredRow).risk_score ≤ 100 := by
  have hp : predict { model := some (fun _ => [-50, 500]), scaler := (fun m => m),
                      feature_names_ := ["latitude", "longitude"] }
        {} .noDem .transportError {} [(46, 9), (45, 10)] =
      .ok [{ latitude := 46, longitude := 9, risk_score := 0, alert_level := .VERDE },
           { latitude := 45, longitude := 10, risk_score := 100, alert_level := .ROSSO }] := by
    rfl
  refine ⟨hp, ?_⟩
  exact C4_predict_scores_clipped _ _ _ _ _ _ _ hp _ (by simp)

theorem pySlice_zero_natCast {α : Type} (xs : List α) (b : ℕ) :
    pySlice xs 0 (b : ℤ) = xs.take (min b xs.length) := by
  have h := pySlice_natCast xs 0 b
  simpa using h

/-- C6: for a validated provider response carrying at least as many
daily values as the configured past-day window (taken ≥ 3 so that the
last three past days exist, as the default 7 does), the weather sampler
returns precip1dPast = the value on the last past day, precip3dPast =
the sum of the last 3 past days, precip7dPast = the sum of all past
days requested, precip3dForecast = the sum of all forecast days
requested, with every missing (null) daily value replaced by 0; for a
response with fewer daily values than the window it returns the fixed
fallback instead. -/
theorem C6_weather_success :
    ∀ (cfg : FEConfig) (lat lon : ℚ) (precip_raw : List (Option ℚ)),
      -90 ≤ lat → lat ≤ 90 → -180 ≤ lon → lon ≤ 180 →
      (3 ≤ cfg.weather_past_days.getD 7 →
        cfg.weather_past_days.getD 7 ≤ precip_raw.length →
        extract_weather_features cfg
            (.response { daily_precipitation_sum := some precip_raw }) lat lon =
          .ok { precip_1d_past :=
                  (precip_raw.map (fun p => p.getD 0)).getD (cfg.weather_past_days.getD 7 - 1) 0
              , precip_3d_past :=
                  (((precip_raw.map (fun p => p.getD 0)).take (cfg.weather_past_days.getD 7)).drop
                    (cfg.weather_past_days.getD 7 - 3)).sum
              , precip_7d_past :=
                  ((precip_raw.map (fun p => p.getD 0)).take (cfg.weather_past_days.getD 7)).sum
              , precip_3d_forecast :=
                  ((precip_raw.map (fun p => p.getD 0)).drop (cfg.weather_past_days.getD 7)).sum }) ∧
      (precip_raw.length < cfg.weather_past_days.getD 7 →
        extract_weather_features cfg
            (.response { daily_precipitation_sum := some precip_raw }) lat lon =
          .ok weatherFallback) := by
  intro cfg lat lon precip_raw h1 h2 h3 h4
  have hin : ¬(¬(-90 ≤ lat ∧ lat ≤ 90) ∨ ¬(-180 ≤ lon ∧ lon ≤ 180)) := by
    push_neg
    exact ⟨⟨h1, h2⟩, ⟨h3, h4⟩⟩
  have hmaplen : (precip_raw.map (fun p => p.getD (0 : ℚ))).length = precip_raw.length :=
    List.length_map _ _
  refine ⟨?_, ?_⟩
  · intro hp3 hplen
    have hlt : ¬((precip_raw.map (fun p => p.getD (0 : ℚ))).length <
        cfg.weather_past_days.getD 7) := by omega
    have hidx : cfg.weather_past_days.getD 7 - 1 <
        (precip_raw.map (fun p => p.getD (0 : ℚ))).length := by omega
    have hpi := pyIndex_nat_ok (precip_raw.map (fun p => p.getD (0 : ℚ)))
      (cfg.weather_past_days.getD 7 - 1) 0 hidx
    have hc1 : ((cfg.weather_past_days.getD 7 : ℤ) - 1) =
        ((cfg.weather_past_days.getD 7 - 1 : ℕ) : ℤ) := by omega
    have hc3 : ((cfg.weather_past_days.getD 7 : ℤ) - 3) =
        ((cfg.weather_past_days.getD 7 - 3 : ℕ) : ℤ) := by omega
    have hs3 : pySlice (precip_raw.map (fun p => p.getD (0 : ℚ)))
        ((cfg.weather_past_days.getD 7 : ℤ) - 3) (cfg.weather_past_days.getD 7 : ℤ) =
        ((precip_raw.map (fun p => p.getD (0 : ℚ))).take (cfg.weather_past_days.getD 7)).drop
          (cfg.weather_past_days.getD 7 - 3) := by
      rw [hc3, pySlice_natCast, min_eq_left (by omega), min_eq_left (by omega)]
    have hs7 : pySlice (precip_raw.map (fun p => p.getD (0 : ℚ))) 0
        (cfg.weather_past_days.getD 7 : ℤ) =
        (precip_raw.map (fun p => p.getD (0 : ℚ))).take (cfg.weather_past_days.getD 7) := by
      rw [pySlice_zero_natCast, min_eq_left (by omega)]
    have hsf : pySlice (precip_raw.map (fun p => p.getD (0 : ℚ)))
        (cfg.weather_past_days.getD 7 : ℤ)
        ((precip_raw.map (fun p => p.getD (0 : ℚ))).length : ℤ) =
        (precip_raw.map (fun p => p.getD (0 : ℚ))).drop (cfg.weather_past_days.getD 7) := by
      rw [pySlice_natCast, min_eq_left (by omega), min_self, List.take_length]
    unfold extract_weather_features
    rw [if_neg hin]
    have hwt : weatherTry cfg (.response { daily_precipitation_sum := some precip_raw }) = .ok
        { precip_1d_past :=
            (precip_raw.map (fun p => p.getD 0)).getD (cfg.weather_past_days.getD 7 - 1) 0
        , precip_3d_past :=
            (((precip_raw.map (fun p => p.getD 0)).take (cfg.weather_past_days.getD 7)).drop
              (cfg.weather_past_days.getD 7 - 3)).sum
        , precip_7d_past :=
            ((precip_raw.map (fun p => p.getD 0)).take (cfg.weather_past_days.getD 7)).sum
        , precip_3d_forecast :=
            ((precip_raw.map (fun p => p.getD 0)).drop (cfg.weather_past_days.getD 7)).sum } := by
      simp only [weatherTry, if_neg hlt, hc1, hpi, hs3, hs7, hsf]
    rw [hwt]
  · intro hshort
    have hlt : (precip_raw.map (fun p => p.getD (0 : ℚ))).length <
        cfg.weather_past_days.getD 7 := by omega
    unfold extract_weather_features
    rw [if_neg hin]
    have hwt : weatherTry cfg (.response { daily_precipitation_sum := some precip_raw }) =
        .ok weatherFallback := by
      simp only [weatherTry, if_pos hlt]
    rw [hwt]

/-- C6 witness: the default 7-day window over a concrete 10-value
response with one null value: precip1dPast is day 7, precip3dPast sums
days 5-7, precip7dPast sums days 1-7 (the null counted as 0),
precip3dForecast sums the 3 forecast days. -/
theorem C6_weather_success_witness :
    extract_weather_features {}
        (.response { daily_precipitation_sum :=
                       some [some 1, none, some 2, some 3, some 4, some 5,
                             some 6, some 8, some 9, some 10] })
        46 9 =
      .ok { precip_1d_past := 6, precip_3d_past := 15, precip_7d_past := 21,
            precip_3d_forecast := 27 } := by
  have h := (C6_weather_success {} 46 9
      [some 1, none, some 2, some 3, some 4, some 5, some 6, some 8, some 9, some 10]
      (by norm_num) (by norm_num) (by norm_num) (by norm_num)).1 (by decide) (by decide)
  rw [h]
  with_unfolding_all rfl

theorem getD_map_of_lt {α β : Type} [Inhabited α] (f : α → β) (l : List α) (i : ℕ)
    (h : i < l.length) (d : β) : (l.map f).getD i d = f (l.getD i default) := by
  rw [List.getD_eq_getElem _ _ (by simpa using h), List.getD_eq_getElem _ _ h]
  simp

theorem getD_replicate_self {β : Type} (n i : ℕ) (d : β) :
    (List.replicate n d).getD i d = d := by
  induction n generalizing i with
  | zero => simp [List.getD]
  | succ m ih =>
    cases i with
    | zero => simp [List.replicate]
    | succ j => simpa [List.replicate] using ih j

theorem getD_range_of_lt (n i : ℕ) (h : i < n) : (List.range n).getD i default = i := by
  rw [List.getD_eq_getElem _ _ (by simpa using h)]
  simp

theorem npUniform_bounds (lo hi u : ℚ) (hle : lo ≤ hi) (h0 : 0 ≤ u) (h1 : u ≤ 1) :
    lo ≤ npUniform lo hi u ∧ npUniform lo hi u ≤ hi := by
  constructor
  · have h2 : 0 ≤ u * (hi - lo) := mul_nonneg h0 (by linarith)
    unfold npUniform
    linarith
  · have h2 : u * (hi - lo) ≤ 1 * (hi - lo) := mul_le_mul_of_nonneg_right h1 (by linarith)
    unfold npUniform
    linarith

theorem prepare_training_data_spec
    (mlcfg : MLConfig) (cfg : FEConfig) (tenv : RasterEnv) (wenv : WeatherEnv)
    (now : Date) (latU lonU : ℕ → ℚ) (negDate : ℕ → Date) (events : List HistEvent)
    (hne : events ≠ []) (hpast : 1 ≤ cfg.weather_past_days.getD 7) :
    ∃ X y, prepare_training_data mlcfg cfg tenv wenv now latU lonU negDate events = .ok (X, y) ∧
      X.length = 2 * events.length ∧
      y = events.map (fun e => e.intensita.getD 50) ++ List.replicate events.length 0 ∧
      (∀ i, i < events.length →
        (X.getD i default).latitude = (events.getD i default).lat ∧
        (X.getD i default).longitude = (events.getD i default).lon) ∧
      (∀ i, i < events.length →
        (X.getD (events.length + i) default).latitude =
          npUniform (mlcfg.lombardy_bounds.getD defaultBounds).lat_min
            (mlcfg.lombardy_bounds.getD defaultBounds).lat_max (latU i) ∧
        (X.getD (events.length + i) default).longitude =
          npUniform (mlcfg.lombardy_bounds.getD defaultBounds).lon_min
            (mlcfg.lombardy_bounds.getD defaultBounds).lon_max (lonU i)) := by
  obtain ⟨pos, hpos_eq, hpos_len, hpos_idx⟩ :=
    mapExcept_ok_of_forall
      (fun e => create_feature_vector cfg tenv wenv e.lat e.lon (e.data_evento.getD now))
      events
      (fun e _ =>
        (create_feature_vector_ok cfg tenv wenv e.lat e.lon (e.data_evento.getD now)
          hpast).elim (fun fv hfv => ⟨fv, hfv.1⟩))
  obtain ⟨neg, hneg_eq, hneg_len, hneg_idx⟩ :=
    mapExcept_ok_of_forall
      (fun i => create_feature_vector cfg tenv wenv
        (npUniform (mlcfg.lombardy_bounds.getD defaultBounds).lat_min
          (mlcfg.lombardy_bounds.getD defaultBounds).lat_max (latU i))
        (npUniform (mlcfg.lombardy_bounds.getD defaultBounds).lon_min
          (mlcfg.lombardy_bounds.getD defaultBounds).lon_max (lonU i))
        (negDate i))
      (List.range pos.length)
      (fun i _ =>
        (create_feature_vector_ok cfg tenv wenv
          (npUniform (mlcfg.lombardy_bounds.getD defaultBounds).lat_min
            (mlcfg.lombardy_bounds.getD defaultBounds).lat_max (latU i))
          (npUniform (mlcfg.lombardy_bounds.getD defaultBounds).lon_min
            (mlcfg.lombardy_bounds.getD defaultBounds).lon_max (lonU i))
          (negDate i) hpast).elim (fun fv hfv => ⟨fv, hfv.1⟩))
  have hpos_ne : pos ≠ [] := by
    intro h0
    apply hne
    rw [h0] at hpos_len
    exact List.length_eq_zero.mp (by simpa using hpos_len.symm)
  have hposne : pos.isEmpty = false := by
    cases pos with
    | nil => exact absurd rfl hpos_ne
    | cons a l => rfl
  refine ⟨pos ++ neg,
    (events.map fun e => e.intensita.getD 50) ++ List.replicate events.length 0,
    ?_, ?_, rfl, ?_, ?_⟩
  · simp only [prepare_training_data, hpos_eq, hposne, Bool.false_eq_true, if_false, hneg_eq]
    rw [hpos_len]
  · rw [List.length_append, hneg_len, List.length_range, hpos_len]
    omega
  · intro i hi
    have h1 := hpos_idx i (by simpa using hi)
    have h2 := create_feature_vector_fields _ _ _ _ _ _ _ h1
    rw [List.getD_append _ _ _ _ (by rw [hpos_len]; exact hi)]
    exact h2
  · intro i hi
    have hi2 : i < (List.range pos.length).length := by
      rw [List.length_range, hpos_len]
      exact hi
    have h1 := hneg_idx i hi2
    have hr : (List.range pos.length).getD i default = i :=
      getD_range_of_lt pos.length i (by rw [hpos_len]; exact hi)
    rw [hr] at h1
    have h2 := create_feature_vector_fields _ _ _ _ _ _ _ h1
    have hle : pos.length ≤ events.length + i := by
      rw [hpos_len]
      omega
    rw [List.getD_append_right _ _ _ _ hle]
    have hsub : events.length + i - pos.length = i := by
      rw [hpos_len]
      omega
    rw [hsub]
    exact h2

/-- C5: on a non-empty list of K historical events, training-set
assembly succeeds and produces exactly 2K rows and 2K labels: the first
K rows are the positives in event order (the row echoes the event's
coordinates) labeled with each event's recorded intensity, the last K
rows are synthetic negatives labeled 0, each generated at a point whose
latitude and longitude lie inside the effective study-area bounds
(given unit random draws in [0, 1], ordered bounds, and a past-day
window of at least one day, as the defaults satisfy). -/
theorem C5_training_set_assembly :
    ∀ (mlcfg : MLConfig) (cfg : FEConfig) (tenv : RasterEnv) (wenv : WeatherEnv)
      (now : Date) (latU lonU : ℕ → ℚ) (negDate : ℕ → Date) (events : List HistEvent),
      events ≠ [] →
      1 ≤ cfg.weather_past_days.getD 7 →
      (∀ i, 0 ≤ latU i ∧ latU i ≤ 1) →
      (∀ i, 0 ≤ lonU i ∧ lonU i ≤ 1) →
      (mlcfg.lombardy_bounds.getD defaultBounds).lat_min ≤
        (mlcfg.lombardy_bounds.getD defaultBounds).lat_max →
      (mlcfg.lombardy_bounds.getD defaultBounds).lon_min ≤
        (mlcfg.lombardy_bounds.getD defaultBounds).lon_max →
      ∃ X y,
        prepare_training_data mlcfg cfg tenv wenv now latU lonU negDate events = .ok (X, y) ∧
        X.length = 2 * events.length ∧
        y.length = 2 * events.length ∧
        (∀ i, i < events.length →
          (X.getD i default).latitude = (events.getD i default).lat ∧
          (X.getD i default).longitude = (events.getD i default).lon) ∧
        (∀ i v, i < events.length → (events.getD i default).intensita = some v →
          y.getD i 0 = v) ∧
        (∀ i, i < events.length → y.getD (events.length + i) 0 = 0) ∧
        (∀ i, i < events.length →
          (mlcfg.lombardy_bounds.getD defaultBounds).lat_min ≤
            (X.getD (events.length + i) default).latitude ∧
          (X.getD (events.length + i) default).latitude ≤
            (mlcfg.lombardy_bounds.getD defaultBounds).lat_max ∧
          (mlcfg.lombardy_bounds.getD defaultBounds).lon_min ≤
            (X.getD (events.length + i) default).longitude ∧
          (X.getD (events.length + i) default).longitude ≤
            (mlcfg.lombardy_bounds.getD defaultBounds).lon_max) := by
  intro mlcfg cfg tenv wenv now latU lonU negDate events hne hpast hu hv hblat hblon
  obtain ⟨X, y, heq, hXlen, hyform, hposf, hnegf⟩ :=
    prepare_training_data_spec mlcfg cfg tenv wenv now latU lonU negDate events hne hpast
  refine ⟨X, y, heq, hXlen, ?_, hposf, ?_, ?_, ?_⟩
  · rw [hyform, List.length_append, List.length_map, List.length_replicate]
    omega
  · intro i v hi hv2
    rw [hyform, List.getD_append _ _ _ _ (by simpa using hi),
      getD_map_of_lt _ _ _ hi, hv2]
    rfl
  · intro i hi
    rw [hyform, List.getD_append_right _ _ _ _ (by simp only [List.length_map]; omega)]
    have hsub : events.length + i - (events.map fun e => e.intensita.getD 50).length = i := by
      simp only [List.length_map]
      omega
    rw [hsub]
    exact getD_replicate_self _ _ _
  · intro i hi
    obtain ⟨hlat, hlon⟩ := hnegf i hi
    rw [hlat, hlon]
    obtain ⟨ha, hb⟩ := npUniform_bounds _ _ _ hblat (hu i).1 (hu i).2
    obtain ⟨hc, hd⟩ := npUniform_bounds _ _ _ hblon (hv i).1 (hv i).2
    exact ⟨ha, hb, hc, hd⟩

/-- C5 witness: one event of intensity 80 with default configs, failing
samplers (so fallbacks are exercised), and the constant unit draw 1/2. -/
theorem C5_training_set_assembly_witness :
    ∃ X y,
      prepare_training_data {} {} .noDem .transportError {} (fun _ => 1/2) (fun _ => 1/2)
          (fun _ => {}) sampleEvents = .ok (X, y) ∧
      X.length = 2 * sampleEvents.length ∧
      y.length = 2 * sampleEvents.length ∧
      (∀ i, i < sampleEvents.length →
        (X.getD i default).latitude = (sampleEvents.getD i default).lat ∧
        (X.getD i default).longitude = (sampleEvents.getD i default).lon) ∧
      (∀ i v, i < sampleEvents.length → (sampleEvents.getD i default).intensita = some v →
        y.getD i 0 = v) ∧
      (∀ i, i < sampleEvents.length → y.getD (sampleEvents.length + i) 0 = 0) ∧
      (∀ i, i < sampleEvents.length →
        (({} : MLConfig).lombardy_bounds.getD defaultBounds).lat_min ≤
          (X.getD (sampleEvents.length + i) default).latitude ∧
        (X.getD (sampleEvents.length + i) default).latitude ≤
          (({} : MLConfig).lombardy_bounds.getD defaultBounds).lat_max ∧
        (({} : MLConfig).lombardy_bounds.getD defaultBounds).lon_min ≤
          (X.getD (sampleEvents.length + i) default).longitude ∧
        (X.getD (sampleEvents.length + i) default).longitude ≤
          (({} : MLConfig).lombardy_bounds.getD defaultBounds).lon_max) :=
  C5_training_set_assembly {} {} .noDem .transportError {} (fun _ => 1/2) (fun _ => 1/2)
    (fun _ => {}) sampleEvents (by simp [sampleEvents]) (by decide)
    (fun i => by norm_num) (fun i => by norm_num)
    (by norm_num [defaultBounds]) (by norm_num [defaultBounds])

/-- C10: an historical event record that lacks an intensity value does
not make training-set assembly fail, and its positive sample is labeled
with the fixed default 50 rather than an observed intensity. -/
theorem C10_missing_intensity_defaults_to_50 :
    ∀ (mlcfg : MLConfig) (cfg : FEConfig) (tenv : RasterEnv) (wenv : WeatherEnv)
      (now : Date) (latU lonU : ℕ → ℚ) (negDate : ℕ → Date) (events : List HistEvent) (i : ℕ),
      events ≠ [] → 1 ≤ cfg.weather_past_days.getD 7 →
      i < events.length → (events.getD i default).intensita = none →
      ∃ X y,
        prepare_training_data mlcfg cfg tenv wenv now latU lonU negDate events = .ok (X, y) ∧
        y.getD i 0 = 50 := by
  intro mlcfg cfg tenv wenv now latU lonU negDate events i hne hpast hi hnone
  obtain ⟨X, y, heq, _, hyform, _, _⟩ :=
    prepare_training_data_spec mlcfg cfg tenv wenv now latU lonU negDate events hne hpast
  refine ⟨X, y, heq, ?_⟩
  rw [hyform, List.getD_append _ _ _ _ (by simpa using hi),
    getD_map_of_lt _ _ _ hi, hnone]
  rfl

/-- C10 witness: a single event with no intensity field. -/
theorem C10_missing_intensity_defaults_to_50_witness :
    ∃ X y,
      prepare_training_data {} {} .noDem .transportError {} (fun _ => 1/2) (fun _ => 1/2)
          (fun _ => {}) [{ lat := 45, lon := 9 }] = .ok (X, y) ∧
      y.getD 0 0 = 50 :=
  C10_missing_intensity_defaults_to_50 {} {} .noDem .transportError {} (fun _ => 1/2)
    (fun _ => 1/2) (fun _ => {}) [{ lat := 45, lon := 9 }] 0
    (by simp) (by decide) (by decide) (by decide)
